import Mathlib

/-!
Shallow embedding of the `gitls` terminal UI (src/internals/bblt.go).

The program is a bubbletea application with two models: `usernameModel`
(identity entry) and `repoModel` (repository browsing and cloning).
We embed the two `Update` functions, the startup logic of `BbltRun`,
the directory-name slicing of `cloneRepo`, and the page loop of
`fetchRepos` as executable Lean functions.

Modelling conventions:
* bubbletea commands (`tea.Cmd`) are a data type `Cmd`; a `nil` command
  is the empty list and `tea.Batch` is list concatenation.
* the list widget (`bubbles/list`) and the text-input widget are
  external collaborators: their `Update` functions are parameters of the
  embedded controller updates.  Their commands can never be `tea.Quit`
  or a clone command, which the `Cmd` type records by giving them their
  own constructors.  `list.Model.SelectedItem` is embedded concretely
  (it returns `nil` — here `none` — when the cursor is out of range or
  the item list is empty, exactly as in bubbles).
* a Go runtime panic (failed type assertion, out-of-range string slice)
  is `none` in an `Option` result.
* Go byte-indexed string slicing is modelled on `List Char`; the URLs
  and usernames involved are ASCII, where the two agree.
-/

namespace Gitls

/-- Go `unicode.IsSpace` restricted to the ASCII white-space set used by
`strings.TrimSpace` on ASCII input. -/
def isGoSpace (c : Char) : Bool :=
  c = '\t' || c = '\n' || c = '\x0B' || c = '\x0C' || c = '\r' || c = ' '

/-- Embeds `strings.TrimSpace`: drop white space from both ends. -/
def trimSpace (s : String) : String :=
  String.mk (((s.data.dropWhile isGoSpace).reverse.dropWhile isGoSpace).reverse)

/-- Index of the last occurrence of a slash, as in
`strings.LastIndex(url, "/")` (`none` plays the role of Go's `-1`). -/
def lastSlashIdx : List Char → Option Nat
  | [] => none
  | c :: rest =>
      match lastSlashIdx rest with
      | some i => some (i + 1)
      | none => if c = '/' then some 0 else none

/-- Go slice expression `l[a:b]`; `none` is the out-of-range panic. -/
def goSlice (l : List Char) (a b : Int) : Option (List Char) :=
  if 0 ≤ a ∧ a ≤ b ∧ b ≤ (l.length : Int) then
    some ((l.take b.toNat).drop a.toNat)
  else
    none

/-- Embeds the directory-name derivation of `cloneRepo`:
`url[strings.LastIndex(url, "/")+1 : len(url)-4]`. -/
def dirName (url : String) : Option String :=
  let cs := url.data
  let start : Int :=
    match lastSlashIdx cs with
    | some i => (i : Int) + 1
    | none => 0
  (goSlice cs start ((cs.length : Int) - 4)).map (fun l => String.mk l)

/-- Embeds `github.Repository` restricted to the fields the program
reads (`GetName`, `GetCloneURL`). -/
structure Repo where
  name : String
  cloneURL : String
deriving DecidableEq, Repr

/-- Embeds the `item` list-entry type. -/
structure Item where
  name : String
  url : String
deriving DecidableEq, Repr

/-- Embeds the `bubbles/list` model restricted to what the program
observes: the items, the cursor, and the size set by `SetSize`. -/
structure ListModel where
  items : List Item
  cursor : Nat
  width : Int
  height : Int
deriving DecidableEq, Repr

/-- Embeds `list.Model.SelectedItem`: `nil` (here `none`) when the item
list is empty or the cursor is out of range. -/
def ListModel.selectedItem (m : ListModel) : Option Item :=
  if m.items.length ≤ m.cursor then none else m.items.get? m.cursor

/-- Key messages.  `repoModel.Update` compares `msg.String()` (see
`KeyMsg.str`); `usernameModel.Update` switches on `msg.Type`, which the
constructors encode. -/
inductive KeyMsg where
  | ctrlC
  | enter
  | esc
  | runes (s : String)
deriving DecidableEq, Repr

/-- Embeds `tea.KeyMsg.String()`. -/
def KeyMsg.str : KeyMsg → String
  | KeyMsg.ctrlC => "ctrl+c"
  | KeyMsg.enter => "enter"
  | KeyMsg.esc => "esc"
  | KeyMsg.runes s => s

/-- Error value carried by `cloneFinishedMsg.err`: the wrapped exec
error and the combined output, as built by
`fmt.Errorf("%w: %s", err, string(output))`. -/
structure GoCloneErr where
  execErr : String
  output : String
deriving DecidableEq, Repr

/-- Messages fed to the event loop: key presses, resizes,
`cloneFinishedMsg` and `spinner.TickMsg`. -/
inductive Msg where
  | key (k : KeyMsg)
  | windowSize (w h : Int)
  | cloneFinished (err : Option GoCloneErr) (dir : String)
  | spinnerTick
deriving DecidableEq, Repr

/-- Embeds `repoModel`.  The spinner is its animation frame counter. -/
structure RepoModel where
  username : String
  repos : List Repo
  list : ListModel
  err : Option String
  spinner : Nat
  cloning : Bool
  cloneMsg : String
  cloneError : Bool
deriving DecidableEq, Repr

/-- Embeds the text-input widget restricted to what the program sets
and reads. -/
structure TextInput where
  value : String
  charLimit : Nat
  focused : Bool
deriving DecidableEq, Repr

/-- Embeds `usernameModel`. -/
structure UsernameModel where
  rootModel : RepoModel
  username : String
  textInput : TextInput
  err : Option String
deriving DecidableEq, Repr

/-- Embeds `tea.Model`: the two controllers of the program. -/
inductive Model where
  | browse (m : RepoModel)
  | identity (m : UsernameModel)
deriving DecidableEq, Repr

/-- Embeds `tea.Cmd`.  The list and text widgets can only produce their
own internal commands, never `tea.Quit` or a clone. -/
inductive Cmd where
  | quit
  | spinnerTick
  | clone (url : String)
  | blink
  | listCmd
  | textCmd
deriving DecidableEq, Repr

/-- True exactly for `Cmd.clone`. -/
def Cmd.isClone : Cmd → Bool
  | Cmd.clone _ => true
  | _ => false

/-- True exactly for `Cmd.quit`. -/
def Cmd.isQuit : Cmd → Bool
  | Cmd.quit => true
  | _ => false

/-- Possibly-nil command returned by the list widget, as a `Cmd` list. -/
def optListCmd : Option Unit → List Cmd
  | none => []
  | some _ => [Cmd.listCmd]

/-- Possibly-nil command returned by the text widget, as a `Cmd` list. -/
def optTextCmd : Option Unit → List Cmd
  | none => []
  | some _ => [Cmd.textCmd]

/-- Zero value of `list.Model` as the program observes it (also what
`list.New` with size 0,0 produces). -/
def zeroListModel : ListModel :=
  { items := [], cursor := 0, width := 0, height := 0 }

/-- Zero value `repoModel\x7b\x7d` used by `BbltRun`. -/
def zeroRepoModel : RepoModel :=
  { username := "", repos := [], list := zeroListModel, err := none,
    spinner := 0, cloning := false, cloneMsg := "", cloneError := false }

/-- Embeds `prepUsernameModel`: a fresh focused text input holding the
seed username, with the fallback browse model retained. -/
def prepUsernameModel (username : String) (rootModel : RepoModel) : UsernameModel :=
  { rootModel := rootModel, username := username,
    textInput := { value := username, charLimit := 64, focused := true },
    err := none }

/-- Result of running the external `git clone` process: exit status,
a description of the exec error when it failed, and the combined
output. -/
structure ProcResult where
  exitOk : Bool
  execErr : String
  output : String
deriving DecidableEq, Repr

/-- Embeds the message construction inside `cloneRepo`: on failure the
message wraps the exec error together with the combined output; on
success it carries `dirName url` (whose slicing may panic, hence
`Option`). -/
def cloneFinishedOf (url : String) (res : ProcResult) : Option Msg :=
  if res.exitOk = true then
    (dirName url).map (fun d => Msg.cloneFinished none d)
  else
    some (Msg.cloneFinished (some { execErr := res.execErr, output := res.output }) "")

/-- Embeds `initialModel`: fetch the repositories (through the fetch
collaborator), and build the browse model; on a fetch error or an empty
result the model carries an empty list. -/
def initialModel (fetch : String → Except String (List Repo)) (username : String) :
    RepoModel :=
  match fetch username with
  | Except.error e =>
      { username := username, repos := [], list := zeroListModel, err := some e,
        spinner := 0, cloning := false, cloneMsg := "", cloneError := false }
  | Except.ok repos =>
      if repos.length ≤ 0 then
        { username := username, repos := [], list := zeroListModel, err := none,
          spinner := 0, cloning := false, cloneMsg := "", cloneError := false }
      else
        { username := username, repos := repos,
          list := { items := repos.map (fun r => { name := r.name, url := r.cloneURL }),
                    cursor := 0, width := 80, height := 24 },
          err := none, spinner := 0, cloning := false, cloneMsg := "",
          cloneError := false }

/-- Embeds `repoModel.Update`.  `lu` is the list widget's `Update`
collaborator.  The `none` result is the runtime panic of the failed
type assertion `m.list.SelectedItem().(item)` when no item is
selected. -/
def repoUpdate (lu : ListModel → Msg → ListModel × Option Unit)
    (m : RepoModel) (msg : Msg) : Option (Model × List Cmd) :=
  match msg with
  | Msg.key k =>
      if k.str = "ctrl+c" ∧ m.cloning = false then
        some (Model.browse m, [Cmd.quit])
      else if k.str = "enter" ∧ m.cloning = false then
        match m.list.selectedItem with
        | none => none
        | some it =>
            some (Model.browse { m with
                                 cloning := true
                                 cloneMsg := "Cloning " ++ it.name ++ "..." },
                  [Cmd.spinnerTick, Cmd.clone it.url])
      else if k.str = "c" ∧ m.cloning = false then
        some (Model.identity (prepUsernameModel m.username m), [])
      else
        some (Model.browse { m with list := (lu m.list msg).1 },
              optListCmd (lu m.list msg).2)
  | Msg.windowSize w h =>
      let resized : ListModel := { m.list with width := w - 4, height := h - 2 }
      some (Model.browse { m with list := (lu resized msg).1 },
            optListCmd (lu resized msg).2)
  | Msg.cloneFinished e d =>
      match e with
      | some ce =>
          some (Model.browse
                  { m with
                    cloning := false
                    cloneError := true
                    cloneMsg := "Error cloning: " ++ ce.execErr ++ ": " ++ ce.output },
                [])
      | none =>
          some (Model.browse
                  { m with
                    cloning := false
                    cloneError := false
                    cloneMsg := "Successfully cloned to " ++ d ++ "/" },
                [])
  | Msg.spinnerTick =>
      some (Model.browse { m with spinner := m.spinner + 1 }, [Cmd.spinnerTick])

/-- Embeds `usernameModel.Update`.  `tu` is the text widget's `Update`
collaborator; `fetch` the fetch collaborator used by `initialModel`. -/
def usernameUpdate (tu : TextInput → Msg → TextInput × Option Unit)
    (fetch : String → Except String (List Repo))
    (m : UsernameModel) (msg : Msg) : Model × List Cmd :=
  match msg with
  | Msg.key KeyMsg.ctrlC => (Model.identity m, [Cmd.quit])
  | Msg.key KeyMsg.enter =>
      if trimSpace m.textInput.value = "" then
        (Model.identity m, [])
      else
        (Model.browse (initialModel fetch (trimSpace m.textInput.value)), [])
  | Msg.key KeyMsg.esc =>
      if m.username = "" then
        (Model.identity m, [Cmd.quit])
      else
        (Model.browse m.rootModel, [])
  | other =>
      (Model.identity { m with textInput := (tu m.textInput other).1 },
       optTextCmd (tu m.textInput other).2)

/-- Embeds the page loop of `fetchRepos`.  The paged collaborator is
modelled as the sequence of per-page results it would return in
request order; the loop consumes them in order, accumulating entries,
and aborts on the first error, wrapping it as in
`fmt.Errorf("failed to list repos: %w", err)`. -/
def fetchLoop : List (Except String (List Repo)) → List Repo →
    Except String (List Repo)
  | [], acc => Except.ok acc
  | p :: rest, acc =>
      match p with
      | Except.error e => Except.error ("failed to list repos: " ++ e)
      | Except.ok rs => fetchLoop rest (acc ++ rs)

/-- Embeds `fetchRepos` over the simulated page sequence. -/
def fetchRepos (pages : List (Except String (List Repo))) :
    Except String (List Repo) :=
  fetchLoop pages []

/-- Embeds the startup logic of `BbltRun`: run `git config user.name`
(its result modelled as an optional error and the combined output),
trim the output, and pick the starting model with the condition
`err != nil && un == ""`. -/
def startupModel (fetch : String → Except String (List Repo))
    (gitErr : Option String) (gitOut : String) : Model :=
  let un := trimSpace gitOut
  if gitErr.isSome = true ∧ un = "" then
    Model.identity (prepUsernameModel "" zeroRepoModel)
  else
    Model.browse (initialModel fetch un)

/-- Browse model produced by handling a `cloneFinishedMsg`, named so the
clone-completion theorem can state the result fields explicitly. -/
def cloneResultModel (m : RepoModel) (err : Option GoCloneErr) (dir : String) :
    RepoModel :=
  match err with
  | some ce =>
      { m with
        cloning := false
        cloneError := true
        cloneMsg := "Error cloning: " ++ ce.execErr ++ ": " ++ ce.output }
  | none =>
      { m with
        cloning := false
        cloneError := false
        cloneMsg := "Successfully cloned to " ++ dir ++ "/" }

/-- Iterated confirm-key presses on the browse controller: feed `n`
enter-key messages through `repoUpdate`, collecting all dispatched
commands. -/
def enterSteps (lu : ListModel → Msg → ListModel × Option Unit) :
    Nat → RepoModel → RepoModel × List Cmd
  | 0, m => (m, [])
  | n + 1, m =>
      match repoUpdate lu m (Msg.key KeyMsg.enter) with
      | some (Model.browse m2, cs) =>
          ((enterSteps lu n m2).1, cs ++ (enterSteps lu n m2).2)
      | _ => (m, [])

/-- Sample list-widget collaborator for concrete evaluations: keeps the
list unchanged and emits no command. -/
def luId : ListModel → Msg → ListModel × Option Unit := fun l _ => (l, none)

/-- Sample text-widget collaborator for concrete evaluations. -/
def tuId : TextInput → Msg → TextInput × Option Unit := fun t _ => (t, none)

/-- Sample fetch collaborator that fails. -/
def fetchErr : String → Except String (List Repo) :=
  fun _ => Except.error "network down"

/-- Sample fetch collaborator returning zero repositories. -/
def fetchZero : String → Except String (List Repo) := fun _ => Except.ok []

/-- Sample fetch collaborator returning one repository. -/
def fetchOne : String → Except String (List Repo) :=
  fun _ => Except.ok
    [{ name := "myrepo", cloneURL := "https://github.com/user/myrepo.git" }]

/-- Sample browse model with one repository and a valid selection. -/
def mBrowseEx : RepoModel := initialModel fetchOne "alice"

/-- Sample browse model in the middle of a clone. -/
def mCloningEx : RepoModel :=
  { mBrowseEx with cloning := true, cloneMsg := "Cloning myrepo..." }

/-- Sample identity model seeded from the sample browse model. -/
def uIdentEx : UsernameModel := prepUsernameModel "alice" mBrowseEx

/-- Sample identity model with an empty seed username (startup form). -/
def uEmptyEx : UsernameModel := prepUsernameModel "" zeroRepoModel

/-- Sample identity model whose text field holds only white space. -/
def uWsEx : UsernameModel :=
  { rootModel := zeroRepoModel, username := "alice",
    textInput := { value := " \t ", charLimit := 64, focused := true },
    err := none }

/-- Sample failing clone process result. -/
def resFailEx : ProcResult :=
  { exitOk := false, execErr := "exit status 128",
    output := "fatal: repository not found" }

/-- Error value wrapped into the clone-finished message for `resFailEx`. -/
def ceFailEx : GoCloneErr :=
  { execErr := "exit status 128", output := "fatal: repository not found" }

/-- Sample clone URL. -/
def urlEx : String := "https://github.com/user/myrepo.git"

/-- Helper: any key whose `String()` is none of the three bound keys is
forwarded unchanged to the list widget. -/
theorem repoUpdate_forward_key (lu : ListModel → Msg → ListModel × Option Unit)
    (m : RepoModel) (k : KeyMsg)
    (h1 : ¬ k.str = "ctrl+c") (h2 : ¬ k.str = "enter") (h3 : ¬ k.str = "c") :
    repoUpdate lu m (Msg.key k) =
      some (Model.browse { m with list := (lu m.list (Msg.key k)).1 },
            optListCmd (lu m.list (Msg.key k)).2) := by
  simp [repoUpdate, h1, h2, h3]

/-- Helper: while a clone is in flight every key event falls through the
three guards and is forwarded to the list widget. -/
theorem repoUpdate_key_cloning (lu : ListModel → Msg → ListModel × Option Unit)
    (m : RepoModel) (k : KeyMsg) (h : m.cloning = true) :
    repoUpdate lu m (Msg.key k) =
      some (Model.browse { m with list := (lu m.list (Msg.key k)).1 },
            optListCmd (lu m.list (Msg.key k)).2) := by
  simp [repoUpdate, h]

/-- Helper: list-widget commands are never clone commands. -/
theorem optListCmd_no_clone (o : Option Unit) :
    (optListCmd o).all (fun c => !c.isClone) = true := by
  cases o <;> rfl

/-- Helper: list-widget commands are never the quit command. -/
theorem optListCmd_no_quit (o : Option Unit) :
    (optListCmd o).all (fun c => !c.isQuit) = true := by
  cases o <;> rfl

/-- Helper: the page loop consumes a prefix of successful pages by
accumulating their entries in order. -/
theorem fetchLoop_append (okls : List (List Repo))
    (t : List (Except String (List Repo))) (acc : List Repo) :
    fetchLoop (okls.map Except.ok ++ t) acc = fetchLoop t (acc ++ okls.flatten) := by
  induction okls generalizing acc with
  | nil => simp
  | cons l ls ih => simp [fetchLoop, ih, List.append_assoc]

/-- C1: evaluating the clone directory-name derivation of `cloneRepo`:
a URL ending in `.git` yields the last path segment without the suffix,
but a URL lacking the suffix still loses its last four characters, so
the derived name is corrupted (`myrepo` becomes `my`), contrary to the
claim. -/
theorem dirName_strip_eval :
    dirName "https://github.com/user/myrepo.git" = some "myrepo" ∧
    dirName "https://github.com/user/myrepo" = some "my" := by
  exact ⟨rfl, rfl⟩

/-- C2: after a failed fetch (or a zero-entry fetch) the browse model
still constructs, with an empty list and no clone in flight; but a
confirm-key event in that state evaluates the unguarded type assertion
on the nil selected item and panics (`none`) instead of being ignored,
contrary to the claim. -/
theorem confirm_on_no_selection_panics :
    (initialModel fetchErr "alice").err = some "network down" ∧
    (initialModel fetchErr "alice").list.items = [] ∧
    (initialModel fetchErr "alice").cloning = false ∧
    repoUpdate luId (initialModel fetchErr "alice") (Msg.key KeyMsg.enter) = none ∧
    (initialModel fetchZero "alice").err = none ∧
    (initialModel fetchZero "alice").list.items = [] ∧
    repoUpdate luId (initialModel fetchZero "alice") (Msg.key KeyMsg.enter) = none := by
  exact ⟨rfl, rfl, rfl, rfl, rfl, rfl, rfl⟩

/-- C3: the startup condition is `err != nil && un == ""`, not the
disjunction the claim states: a successful identity read with an empty
value, and a failed read whose combined output is non-empty, both start
the program in the browse state, not in identity-entry mode. -/
theorem startup_empty_read_goes_browse :
    startupModel fetchErr none "" = Model.browse (initialModel fetchErr "") ∧
    startupModel fetchErr (some "exit status 1") "warning: ignored" =
      Model.browse (initialModel fetchErr "warning: ignored") := by
  exact ⟨rfl, rfl⟩

/-- C4: the cancel key in the identity controller quits when the held
username is empty, and otherwise returns the exact retained browse
model with no command (hence no fetch). -/
theorem esc_cancel_spec (tu : TextInput → Msg → TextInput × Option Unit)
    (fetch : String → Except String (List Repo)) (m : UsernameModel) :
    (m.username = "" →
      usernameUpdate tu fetch m (Msg.key KeyMsg.esc) =
        (Model.identity m, [Cmd.quit])) ∧
    (m.username ≠ "" →
      usernameUpdate tu fetch m (Msg.key KeyMsg.esc) =
        (Model.browse m.rootModel, [])) := by
  constructor <;> intro h <;> simp [usernameUpdate, h]

/-- Witness for the cancel-key theorem at concrete identity models. -/
theorem esc_cancel_spec_witness :
    usernameUpdate tuId fetchErr uEmptyEx (Msg.key KeyMsg.esc) =
      (Model.identity uEmptyEx, [Cmd.quit]) ∧
    usernameUpdate tuId fetchErr uIdentEx (Msg.key KeyMsg.esc) =
      (Model.browse uIdentEx.rootModel, []) :=
  ⟨(esc_cancel_spec tuId fetchErr uEmptyEx).1 rfl,
   (esc_cancel_spec tuId fetchErr uIdentEx).2 (by decide)⟩

/-- C7: over every simulated page sequence, the fetch returns the
concatenation of the pages in order (so the entry count is the total
across pages), and a failing page makes the whole fetch return an error
wrapping the cause, discarding all accumulated pages. -/
theorem fetchRepos_concat_and_abort (okls : List (List Repo)) (e : String)
    (rest : List (Except String (List Repo))) :
    fetchRepos (okls.map Except.ok) = Except.ok okls.flatten ∧
    okls.flatten.length = (okls.map List.length).sum ∧
    fetchRepos (okls.map Except.ok ++ Except.error e :: rest) =
      Except.error ("failed to list repos: " ++ e) := by
  refine ⟨?_, ?_, ?_⟩
  · have h := fetchLoop_append okls [] []
    simpa [fetchRepos, fetchLoop] using h
  · simp [List.length_flatten]
  · have h := fetchLoop_append okls (Except.error e :: rest) []
    simpa [fetchRepos, fetchLoop] using h

/-- C8: confirming with a trimmed-empty text field is a silent no-op:
the identity model is returned unchanged with no command, so no fetch
happens and no error message appears. -/
theorem confirm_empty_username_noop (tu : TextInput → Msg → TextInput × Option Unit)
    (fetch : String → Except String (List Repo)) (m : UsernameModel)
    (h : trimSpace m.textInput.value = "") :
    usernameUpdate tu fetch m (Msg.key KeyMsg.enter) = (Model.identity m, []) := by
  simp [usernameUpdate, h]

/-- Witness for the empty-confirm theorem on a whitespace-only field. -/
theorem confirm_empty_username_noop_witness :
    trimSpace uWsEx.textInput.value = "" ∧
    usernameUpdate tuId fetchErr uWsEx (Msg.key KeyMsg.enter) =
      (Model.identity uWsEx, []) :=
  ⟨rfl, confirm_empty_username_noop tuId fetchErr uWsEx rfl⟩

/-- C9: the terminate key quits exactly when no clone is in flight:
when idle it returns the quit command, and while cloning it is merely
forwarded to the list widget, whose commands never include quit. -/
theorem ctrlc_terminate_spec (lu : ListModel → Msg → ListModel × Option Unit)
    (m : RepoModel) :
    (m.cloning = false →
      repoUpdate lu m (Msg.key KeyMsg.ctrlC) =
        some (Model.browse m, [Cmd.quit])) ∧
    (m.cloning = true →
      repoUpdate lu m (Msg.key KeyMsg.ctrlC) =
        some (Model.browse { m with list := (lu m.list (Msg.key KeyMsg.ctrlC)).1 },
              optListCmd (lu m.list (Msg.key KeyMsg.ctrlC)).2) ∧
      (optListCmd (lu m.list (Msg.key KeyMsg.ctrlC)).2).all
        (fun c => !c.isQuit) = true) := by
  constructor
  · intro h
    simp [repoUpdate, KeyMsg.str, h]
  · intro h
    exact ⟨repoUpdate_key_cloning lu m KeyMsg.ctrlC h,
           optListCmd_no_quit (lu m.list (Msg.key KeyMsg.ctrlC)).2⟩

/-- Witness for the terminate-key theorem at an idle and at a cloning
browse model. -/
theorem ctrlc_terminate_spec_witness :
    repoUpdate luId mBrowseEx (Msg.key KeyMsg.ctrlC) =
      some (Model.browse mBrowseEx, [Cmd.quit]) ∧
    (repoUpdate luId mCloningEx (Msg.key KeyMsg.ctrlC) =
      some (Model.browse { mCloningEx with
                           list := (luId mCloningEx.list (Msg.key KeyMsg.ctrlC)).1 },
            optListCmd (luId mCloningEx.list (Msg.key KeyMsg.ctrlC)).2) ∧
     (optListCmd (luId mCloningEx.list (Msg.key KeyMsg.ctrlC)).2).all
        (fun c => !c.isQuit) = true) :=
  ⟨(ctrlc_terminate_spec luId mBrowseEx).1 rfl,
   (ctrlc_terminate_spec luId mCloningEx).2 rfl⟩

/-- C5: while a clone is in flight, any number of further confirm-key
events leaves the cloning phase fields unchanged and never dispatches a
clone command: the enter key falls through the not-currently-cloning
guard and is merely forwarded to the list widget. -/
theorem confirm_while_cloning_noop (lu : ListModel → Msg → ListModel × Option Unit)
    (n : Nat) (m : RepoModel) (h : m.cloning = true) :
    (enterSteps lu n m).1.cloning = true ∧
    (enterSteps lu n m).1.cloneMsg = m.cloneMsg ∧
    (enterSteps lu n m).1.cloneError = m.cloneError ∧
    (enterSteps lu n m).2.all (fun c => !c.isClone) = true := by
  induction n generalizing m with
  | zero => exact ⟨h, rfl, rfl, rfl⟩
  | succ n ih =>
      have hstep := repoUpdate_key_cloning lu m KeyMsg.enter h
      have h2 : ({ m with list := (lu m.list (Msg.key KeyMsg.enter)).1 } :
          RepoModel).cloning = true := h
      obtain ⟨a, b, c, d⟩ :=
        ih { m with list := (lu m.list (Msg.key KeyMsg.enter)).1 } h2
      refine ⟨?_, ?_, ?_, ?_⟩ <;>
        simp [enterSteps, hstep, a, b, c, d, List.all_append, optListCmd_no_clone]

/-- Witness for the cloning-guard theorem: three confirm presses on the
concrete cloning model change nothing and dispatch nothing. -/
theorem confirm_while_cloning_noop_witness :
    (enterSteps luId 3 mCloningEx).1.cloning = true ∧
    (enterSteps luId 3 mCloningEx).1.cloneMsg = mCloningEx.cloneMsg ∧
    (enterSteps luId 3 mCloningEx).1.cloneError = mCloningEx.cloneError ∧
    (enterSteps luId 3 mCloningEx).2.all (fun c => !c.isClone) = true :=
  confirm_while_cloning_noop luId 3 mCloningEx rfl

/-- Helper: the clone-result message shown by the browse model is never
empty, so the result phase is visible. -/
theorem cloneResultModel_msg_ne (m : RepoModel) (err : Option GoCloneErr)
    (dir : String) :
    (cloneResultModel m err dir).cloneMsg ≠ "" := by
  cases err with
  | none =>
      intro hcontra
      have hl := congrArg String.length hcontra
      simp only [cloneResultModel, String.length_append] at hl
      have e1 : ("Successfully cloned to ").length = 23 := rfl
      have e2 : ("/").length = 1 := rfl
      have e3 : ("" : String).length = 0 := rfl
      rw [e1, e2, e3] at hl
      omega
  | some ce =>
      intro hcontra
      have hl := congrArg String.length hcontra
      simp only [cloneResultModel, String.length_append] at hl
      have e1 : ("Error cloning: ").length = 15 := rfl
      have e2 : (": ").length = 2 := rfl
      have e3 : ("" : String).length = 0 := rfl
      rw [e1, e2, e3] at hl
      omega

/-- C6: handling the clone-completion message built from a process
result clears the cloning flag and sets the visible clone-result state:
a failure outcome carrying the process output exactly when the command
reported a non-zero status, and a success outcome carrying the derived
directory name otherwise; afterwards keys are again forwarded to the
list widget, so the list stays navigable. -/
theorem cloneFinished_spec (lu : ListModel → Msg → ListModel × Option Unit)
    (m : RepoModel) (url : String) (res : ProcResult)
    (err : Option GoCloneErr) (dir : String)
    (h : cloneFinishedOf url res = some (Msg.cloneFinished err dir)) :
    repoUpdate lu m (Msg.cloneFinished err dir) =
      some (Model.browse (cloneResultModel m err dir), []) ∧
    (cloneResultModel m err dir).cloning = false ∧
    (cloneResultModel m err dir).cloneMsg ≠ "" ∧
    (res.exitOk = false →
      (cloneResultModel m err dir).cloneError = true ∧
      (cloneResultModel m err dir).cloneMsg =
        "Error cloning: " ++ res.execErr ++ ": " ++ res.output) ∧
    (res.exitOk = true →
      (cloneResultModel m err dir).cloneError = false ∧
      dirName url = some dir ∧
      (cloneResultModel m err dir).cloneMsg =
        "Successfully cloned to " ++ dir ++ "/") ∧
    repoUpdate lu (cloneResultModel m err dir) (Msg.key (KeyMsg.runes "j")) =
      some (Model.browse { cloneResultModel m err dir with
                           list := (lu (cloneResultModel m err dir).list
                                       (Msg.key (KeyMsg.runes "j"))).1 },
            optListCmd (lu (cloneResultModel m err dir).list
                           (Msg.key (KeyMsg.runes "j"))).2) := by
  have hforward := repoUpdate_forward_key lu (cloneResultModel m err dir)
    (KeyMsg.runes "j") (by decide) (by decide) (by decide)
  cases hres : res.exitOk with
  | true =>
      simp only [cloneFinishedOf, hres, if_pos rfl] at h
      cases hd : dirName url with
      | none => rw [hd] at h; simp at h
      | some d0 =>
          rw [hd] at h
          obtain ⟨he, hdd⟩ := Msg.cloneFinished.inj (Option.some.inj h)
          subst he
          subst hdd
          refine ⟨rfl, rfl, cloneResultModel_msg_ne m none d0, ?_, ?_, hforward⟩
          · intro hf
            exact absurd hf (by decide)
          · intro _
            exact ⟨rfl, rfl, rfl⟩
  | false =>
      simp only [cloneFinishedOf, hres] at h
      rw [if_neg (by decide)] at h
      obtain ⟨he, hdd⟩ := Msg.cloneFinished.inj (Option.some.inj h)
      subst he
      subst hdd
      refine ⟨rfl, rfl, cloneResultModel_msg_ne m _ _, ?_, ?_, hforward⟩
      · intro _
        exact ⟨rfl, rfl⟩
      · intro ht
        exact absurd ht (by decide)

/-- Witness for the clone-completion theorem on a concrete failing
clone whose output is a repository-not-found message. -/
theorem cloneFinished_spec_witness :
    cloneFinishedOf urlEx resFailEx =
      some (Msg.cloneFinished (some ceFailEx) "") ∧
    (repoUpdate luId mCloningEx (Msg.cloneFinished (some ceFailEx) "") =
      some (Model.browse (cloneResultModel mCloningEx (some ceFailEx) ""), []) ∧
    (cloneResultModel mCloningEx (some ceFailEx) "").cloning = false ∧
    (cloneResultModel mCloningEx (some ceFailEx) "").cloneMsg ≠ "" ∧
    (resFailEx.exitOk = false →
      (cloneResultModel mCloningEx (some ceFailEx) "").cloneError = true ∧
      (cloneResultModel mCloningEx (some ceFailEx) "").cloneMsg =
        "Error cloning: " ++ resFailEx.execErr ++ ": " ++ resFailEx.output) ∧
    (resFailEx.exitOk = true →
      (cloneResultModel mCloningEx (some ceFailEx) "").cloneError = false ∧
      dirName urlEx = some "" ∧
      (cloneResultModel mCloningEx (some ceFailEx) "").cloneMsg =
        "Successfully cloned to " ++ "" ++ "/") ∧
    repoUpdate luId (cloneResultModel mCloningEx (some ceFailEx) "")
        (Msg.key (KeyMsg.runes "j")) =
      some (Model.browse { cloneResultModel mCloningEx (some ceFailEx) "" with
                           list := (luId (cloneResultModel mCloningEx
                                             (some ceFailEx) "").list
                                       (Msg.key (KeyMsg.runes "j"))).1 },
            optListCmd (luId (cloneResultModel mCloningEx (some ceFailEx) "").list
                           (Msg.key (KeyMsg.runes "j"))).2)) :=
  ⟨rfl, cloneFinished_spec luId mCloningEx urlEx resFailEx (some ceFailEx) "" rfl⟩

/-- C10: the interrupt key in the identity controller always returns the
quit command, whatever text is held and whatever prior browse model was
retained, including the non-empty change-identity case. -/
theorem ctrlc_identity_always_quits (tu : TextInput → Msg → TextInput × Option Unit)
    (fetch : String → Except String (List Repo)) (m : UsernameModel) :
    usernameUpdate tu fetch m (Msg.key KeyMsg.ctrlC) =
      (Model.identity m, [Cmd.quit]) := rfl

end Gitls
